import Mathlib

/-!
Shallow embedding of the MQTT position-tracking backend
(`src/tracking/tracking.effects.ts`, `src/tracking/tracking.errors.ts`,
`src/shared/types/tracking.types.ts`, `src/realtime/realtime.gateway.ts`,
`src/tracking/tracking.repository.ts`, `src/mqtt/mqtt.client.ts`,
`src/config/config.service.ts`).

JavaScript runtime primitives that the pipeline calls (the zod
`z.string().datetime()` format check, `new Date(...)` parsing, `Date.now()`
and the `new Date()` taken at enrichment time) are not part of the repository;
they are passed in as an explicit environment `JsEnv`, and all theorems
quantify over it.  Timestamps are epoch milliseconds (`Int`); JavaScript
numbers are modelled as `ℚ` (the claims only compare them against integer
bounds).  Error classes carry the same identifying fields as the source
classes; the human-readable `message` strings are elided.
-/

deriving instance DecidableEq for Except

namespace Tracking

/-- Participant status enum (`ParticipantStatusSchema` in
`src/shared/types/tracking.types.ts`: moving, stopped, finished,
disqualified). -/
inductive ParticipantStatus where
  | moving
  | stopped
  | finished
  | disqualified
deriving DecidableEq, Repr

/-- Decode of the `status` string against `ParticipantStatusSchema`
(`z.enum([moving, stopped, finished, disqualified])`). -/
def parseStatus (s : String) : Option ParticipantStatus :=
  if s = "moving" then some ParticipantStatus.moving
  else if s = "stopped" then some ParticipantStatus.stopped
  else if s = "finished" then some ParticipantStatus.finished
  else if s = "disqualified" then some ParticipantStatus.disqualified
  else none

/-- Raw MQTT payload after JSON decode, before schema validation: the six
fields `TrackingPayloadSchema` looks at, still untrusted. -/
structure RawPayload where
  participant_id : String
  race_id : String
  latitude : ℚ
  longitude : ℚ
  timestamp : String
  status : String
deriving DecidableEq, Repr

/-- Payload after `TrackingPayloadSchema` validation
(`src/shared/types/tracking.types.ts`). -/
structure TrackingPayload where
  participant_id : String
  race_id : String
  latitude : ℚ
  longitude : ℚ
  timestamp : String
  status : ParticipantStatus
deriving DecidableEq, Repr

/-- Environment of JavaScript runtime primitives used by the pipeline:
`isDatetime` is zod's `z.string().datetime()` format check, `parseDate`
is `new Date(s).getTime()` returning `none` exactly when the result is
`NaN`, `now` is `Date.now()` observed by `checkStaleData`, and
`serverNow` is the `new Date()` taken by `transformToProcessedPosition`. -/
structure JsEnv where
  isDatetime : String → Bool
  parseDate : String → Option Int
  now : Int
  serverNow : Int

/-- Error thrown when storage operation fails
(`StorageError` in `src/tracking/tracking.errors.ts`); `operation` names
the failed storage operation. -/
structure StorageError where
  message : String
  operation : String
deriving DecidableEq, Repr

/-- Tagged union of the pipeline's error channel
(`src/tracking/tracking.errors.ts`): `PayloadValidationError`,
`TimestampParseError`, `InvalidCoordinatesError`, `StaleDataError`,
`StorageError`, one constructor per distinct `_tag`. -/
inductive TrackingErr where
  | payloadValidation (validationErrors : List String)
  | timestampParse (rawTimestamp : String)
  | invalidCoordinates (latitude longitude : ℚ)
  | staleData (participantId raceId : String) (dataTimestamp threshold : Int)
  | storage (e : StorageError)
deriving DecidableEq, Repr

/-- Issue list produced by `TrackingPayloadSchema.safeParse`: zod checks
every field and collects one issue message per violated constraint, in
field-declaration order (`participant_id`, `race_id`, `latitude`,
`longitude`, `timestamp`, `status`). -/
def schemaIssues (env : JsEnv) (raw : RawPayload) : List String :=
  (if raw.participant_id.length < 1 then
    ["participant_id: String must contain at least 1 character"] else [])
  ++ (if raw.race_id.length < 1 then
    ["race_id: String must contain at least 1 character"] else [])
  ++ (if raw.latitude < -90 then
    ["latitude: Number must be greater than or equal to -90"] else [])
  ++ (if raw.latitude > 90 then
    ["latitude: Number must be less than or equal to 90"] else [])
  ++ (if raw.longitude < -180 then
    ["longitude: Number must be greater than or equal to -180"] else [])
  ++ (if raw.longitude > 180 then
    ["longitude: Number must be less than or equal to 180"] else [])
  ++ (if env.isDatetime raw.timestamp then [] else ["timestamp: Invalid datetime"])
  ++ (if (parseStatus raw.status).isSome then [] else ["status: Invalid enum value"])

/-- Stage 1, `validatePayload` (`tracking.effects.ts` lines 32-55): run
`TrackingPayloadSchema.safeParse`; on any issue fail with
`PayloadValidationError` carrying the issue messages. -/
def validatePayload (env : JsEnv) (raw : RawPayload) :
    Except TrackingErr TrackingPayload :=
  match parseStatus raw.status with
  | none => Except.error (TrackingErr.payloadValidation (schemaIssues env raw))
  | some st =>
    if schemaIssues env raw = [] then
      Except.ok
        { participant_id := raw.participant_id
          race_id := raw.race_id
          latitude := raw.latitude
          longitude := raw.longitude
          timestamp := raw.timestamp
          status := st }
    else Except.error (TrackingErr.payloadValidation (schemaIssues env raw))

/-- Stage 2, `parseTimestamp` (`tracking.effects.ts` lines 60-77):
`new Date(timestamp)`; a `NaN` epoch fails with `TimestampParseError`
carrying the raw string. -/
def parseTimestamp (env : JsEnv) (timestamp : String) : Except TrackingErr Int :=
  match env.parseDate timestamp with
  | some t => Except.ok t
  | none => Except.error (TrackingErr.timestampParse timestamp)

/-- Stage 3, `validateCoordinates` (`tracking.effects.ts` lines 82-103):
re-check latitude ∈ [-90, 90] then longitude ∈ [-180, 180]; out of range
fails with `InvalidCoordinatesError`. -/
def validateCoordinates (latitude longitude : ℚ) :
    Except TrackingErr (ℚ × ℚ) :=
  if latitude < -90 ∨ latitude > 90 then
    Except.error (TrackingErr.invalidCoordinates latitude longitude)
  else if longitude < -180 ∨ longitude > 180 then
    Except.error (TrackingErr.invalidCoordinates latitude longitude)
  else Except.ok (latitude, longitude)

/-- Stage 4, `checkStaleData` (`tracking.effects.ts` lines 108-134):
`dataAge = Date.now() - timestamp.getTime()`; fail with `StaleDataError`
exactly when `dataAge > thresholdMs` (strict inequality). -/
def checkStaleData (participantId raceId : String) (timestamp thresholdMs now : Int) :
    Except TrackingErr Int :=
  if now - timestamp > thresholdMs then
    Except.error (TrackingErr.staleData participantId raceId timestamp thresholdMs)
  else Except.ok timestamp

/-- Position after the five validation stages
(`ProcessedPosition` in `src/shared/types/tracking.types.ts`). -/
structure ProcessedPosition where
  participantId : String
  raceId : String
  latitude : ℚ
  longitude : ℚ
  clientTimestamp : Int
  serverReceivedAt : Int
  status : ParticipantStatus
deriving DecidableEq, Repr

/-- Broadcast-ready shape (`PositionUpdateDto` in
`src/tracking/dto/tracking.dto.ts`). -/
structure PositionUpdateDto where
  participantId : String
  raceId : String
  latitude : ℚ
  longitude : ℚ
  timestamp : Int
  serverReceivedAt : Int
  status : ParticipantStatus
deriving DecidableEq, Repr

/-- Stage 5, `transformToProcessedPosition` (`tracking.effects.ts` lines
139-152): `Effect.succeed` over a record literal stamping
`serverReceivedAt = new Date()`; the source effect is infallible, so the
embedding is a plain total function. -/
def transformToProcessedPosition (env : JsEnv) (payload : TrackingPayload)
    (clientTimestamp : Int) : ProcessedPosition :=
  { participantId := payload.participant_id
    raceId := payload.race_id
    latitude := payload.latitude
    longitude := payload.longitude
    clientTimestamp := clientTimestamp
    serverReceivedAt := env.serverNow
    status := payload.status }

/-- `transformToPositionUpdate` (`tracking.effects.ts` lines 157-169),
also an infallible `Effect.succeed`. -/
def transformToPositionUpdate (position : ProcessedPosition) : PositionUpdateDto :=
  { participantId := position.participantId
    raceId := position.raceId
    latitude := position.latitude
    longitude := position.longitude
    timestamp := position.clientTimestamp
    serverReceivedAt := position.serverReceivedAt
    status := position.status }

/-- Configuration for tracking effects (`TrackingEffectsConfig`). -/
structure TrackingEffectsConfig where
  staleDataThresholdMs : Int
deriving DecidableEq, Repr

/-- Dependencies injected into the pipeline (`TrackingEffectsDeps`): the
two storage writes, each an effect that either succeeds or fails with a
`StorageError`.  The broadcast callback has error type `never`; its
invocations are recorded in the pipeline's effect trace instead. -/
structure TrackingEffectsDeps where
  saveToRedis : ProcessedPosition → Except StorageError Unit
  saveToPostgres : ProcessedPosition → Except StorageError Unit

/-- Observable side effects issued by one pipeline run: the two storage
writes of step 6 and the broadcast callback invocation of step 8. -/
inductive EffectOp where
  | redisWrite (position : ProcessedPosition)
  | postgresWrite (position : ProcessedPosition)
  | broadcast (update : PositionUpdateDto)
deriving DecidableEq, Repr

/-- Concurrency bound passed to `Effect.all` for the dual write
(`tracking.effects.ts` line 222). -/
def dualWriteConcurrency : Nat := 2

/-- Concurrency bound passed to `Effect.all` in
`batchProcessTrackingData` (`tracking.effects.ts` line 319). -/
def batchConcurrency : Nat := 10

/-- Default of the `STALE_DATA_THRESHOLD_MS` configuration value
(`src/config/config.service.ts`, `AppConfigService.app`). -/
def defaultStaleDataThresholdMs : Int := 30000

/-- Stages 1-5 of `processTrackingData` (`tracking.effects.ts` lines
188-216): the nested `Effect.flatMap` chain validate → parse timestamp →
validate coordinates → staleness check → enrich. -/
def validateStages (env : JsEnv) (config : TrackingEffectsConfig)
    (raw : RawPayload) : Except TrackingErr ProcessedPosition :=
  (validatePayload env raw).bind fun payload =>
    (parseTimestamp env payload.timestamp).bind fun clientTimestamp =>
      (validateCoordinates payload.latitude payload.longitude).bind fun _ =>
        (checkStaleData payload.participant_id payload.race_id clientTimestamp
            config.staleDataThresholdMs env.now).bind fun _ =>
          Except.ok (transformToProcessedPosition env payload clientTimestamp)

/-- Steps 6-8 of `processTrackingData` (`tracking.effects.ts` lines
218-233): `Effect.all [saveToRedis, saveToPostgres]` with concurrency 2
(both writes are issued; the step succeeds only if both succeed and fails
with the failed write's `StorageError` otherwise; when both fail
concurrently the source surfaces whichever fiber fails first, which the
embedding determinises to the redis error), then
`transformToPositionUpdate`, then `Effect.tap` of the broadcast callback.
Returns the result together with the trace of issued effects. -/
def dualWriteStep (deps : TrackingEffectsDeps) (position : ProcessedPosition) :
    Except TrackingErr PositionUpdateDto × List EffectOp :=
  match deps.saveToRedis position, deps.saveToPostgres position with
  | Except.ok _, Except.ok _ =>
    (Except.ok (transformToPositionUpdate position),
     [EffectOp.redisWrite position, EffectOp.postgresWrite position,
      EffectOp.broadcast (transformToPositionUpdate position)])
  | Except.error e, _ =>
    (Except.error (TrackingErr.storage e),
     [EffectOp.redisWrite position, EffectOp.postgresWrite position])
  | Except.ok _, Except.error e =>
    (Except.error (TrackingErr.storage e),
     [EffectOp.redisWrite position, EffectOp.postgresWrite position])

/-- `processTrackingData` proper: the five validation stages followed by
the dual write / transform / broadcast steps. -/
def processTrackingData (env : JsEnv) (config : TrackingEffectsConfig)
    (deps : TrackingEffectsDeps) (raw : RawPayload) :
    Except TrackingErr PositionUpdateDto × List EffectOp :=
  match validateStages env config raw with
  | Except.error e => (Except.error e, [])
  | Except.ok position => dualWriteStep deps position

/-- Log severities offered by the injected logger (NestJS `Logger`
methods used in `tracking.effects.ts`): debug < warn < error. -/
inductive LogLevel where
  | debug
  | warn
  | error
deriving DecidableEq, Repr

/-- Numeric rank of a log severity, increasing with importance. -/
def LogLevel.severity : LogLevel → Nat
  | LogLevel.debug => 0
  | LogLevel.warn => 1
  | LogLevel.error => 2

/-- `processTrackingDataWithLogging` (`tracking.effects.ts` lines
239-301): run the pipeline, log the outcome (debug on success; per-tag
`Effect.catchTags` handlers logging warn for the four pipeline rejections
and error for storage failures) and convert every tagged error to `null`
(`none`).  Returns the optional update, the effect trace, and the log
entries written. -/
def processTrackingDataWithLogging (env : JsEnv)
    (config : TrackingEffectsConfig) (deps : TrackingEffectsDeps)
    (raw : RawPayload) :
    Option PositionUpdateDto × List EffectOp × List (LogLevel × String) :=
  match processTrackingData env config deps raw with
  | (Except.ok update, ops) =>
    (some update, ops, [(LogLevel.debug, "Successfully processed tracking data")])
  | (Except.error e, ops) =>
    match e with
    | TrackingErr.payloadValidation _ =>
      (none, ops, [(LogLevel.warn, "Payload validation failed")])
    | TrackingErr.staleData _ _ _ _ =>
      (none, ops, [(LogLevel.warn, "Dropped stale data")])
    | TrackingErr.timestampParse _ =>
      (none, ops, [(LogLevel.warn, "Failed to parse timestamp")])
    | TrackingErr.invalidCoordinates _ _ =>
      (none, ops, [(LogLevel.warn, "Invalid coordinates received")])
    | TrackingErr.storage _ =>
      (none, ops, [(LogLevel.error, "Storage operation failed")])

/-- `batchProcessTrackingData` (`tracking.effects.ts` lines 306-323):
map every payload through `processTrackingDataWithLogging` (error type
`never`), `Effect.all` with concurrency 10, and keep the non-null
results. -/
def batchProcessTrackingData (env : JsEnv) (config : TrackingEffectsConfig)
    (deps : TrackingEffectsDeps) (payloads : List RawPayload) :
    List PositionUpdateDto :=
  (payloads.map fun p => (processTrackingDataWithLogging env config deps p).1).filterMap id

/-! ### Broadcast gateway (`src/realtime/realtime.gateway.ts`) -/

/-- Per-connection state (`SubscribedClient` interface): socket id and
the `Set<string>` of race ids the connection is a member of. -/
structure SubscribedClient where
  socketId : String
  raceIds : Finset String
deriving DecidableEq

/-- In-memory gateway state: the `subscribedClients` map (socket id →
`SubscribedClient`) and the socket.io room membership (room name → set
of socket ids, mutated by `client.join` / `client.leave`). -/
structure GatewayState where
  subscribedClients : String → Option SubscribedClient
  rooms : String → Finset String

/-- Acknowledgment body returned by the subscribe/unsubscribe handlers:
`success`, `message`, optional `raceId`. -/
structure AckResponse where
  success : Bool
  message : String
  raceId : Option String
deriving DecidableEq, Repr

/-- Decode of a message body against `SubscribeRaceSchema`
(`src/tracking/dto/tracking.dto.ts`: a struct with one `NonEmptyString`
field `raceId`).  The body is abstracted to the presence and value of a
string `raceId` field; decode succeeds exactly when it is present and
non-empty. -/
def decodeSubscribeRace (data : Option String) : Option String :=
  match data with
  | some r => if 1 ≤ r.length then some r else none
  | none => none

/-- `RealtimeGateway.handleUnsubscribeRace` (`realtime.gateway.ts` lines
214-257): decode the body (on failure acknowledge with success = false,
state unchanged); on success `client.leave` the room `race:` ++ raceId,
delete the race id from the connection's membership set, and acknowledge
success naming the race. -/
def handleUnsubscribeRace (st : GatewayState) (clientId : String)
    (data : Option String) : GatewayState × AckResponse :=
  match decodeSubscribeRace data with
  | none => (st, { success := false, message := "Invalid race ID", raceId := none })
  | some raceId =>
    let roomName := "race:" ++ raceId
    let rooms1 := fun r =>
      if r = roomName then (st.rooms r).erase clientId else st.rooms r
    let clients1 := fun k =>
      if k = clientId then
        match st.subscribedClients clientId with
        | some sc => some { sc with raceIds := sc.raceIds.erase raceId }
        | none => none
      else st.subscribedClients k
    ({ subscribedClients := clients1, rooms := rooms1 },
     { success := true
       message := "Unsubscribed from race " ++ raceId
       raceId := some raceId })

/-! ### Read-side repository (`src/tracking/tracking.repository.ts` and
`src/database/schema.ts`) -/

/-- Durable row of the `tracking_positions` table.  `id` is the primary
key, a `uuid` column with `defaultRandom()` — a random value bearing no
relation to insert order; the uuid is represented by its 128-bit numeric
value (Postgres compares uuids by byte order, i.e. numerically).
Columns not involved in the latest-per-race query (coordinates, server
timestamp, status) are elided. -/
structure TrackingRow where
  id : Nat
  participantId : String
  raceId : String
  clientTimestamp : Int
deriving DecidableEq, Repr

/-- Append-only table state: rows in insert order (earlier list position
= earlier insert). -/
def TrackingTable := List TrackingRow

/-- Insertion sort step for the final `ORDER BY participant_id`. -/
def insertByParticipant (row : TrackingRow) : List TrackingRow → List TrackingRow
  | [] => [row]
  | r :: rs =>
    if row.participantId ≤ r.participantId then row :: r :: rs
    else r :: insertByParticipant row rs

/-- Result ordering of the outer select: `ORDER BY participant_id`. -/
def sortByParticipant : List TrackingRow → List TrackingRow
  | [] => []
  | r :: rs => insertByParticipant r (sortByParticipant rs)

/-- Inner grouped subquery of `TrackingRepository.findLatestByRace`
(`tracking.repository.ts` lines 133-165): `SELECT MAX(id) FROM
tracking_positions WHERE race_id = raceId GROUP BY participant_id`. -/
def latestIdsByParticipant (table : List TrackingRow) (raceId : String) :
    List Nat :=
  let raceRows := table.filter fun r => r.raceId = raceId
  ((raceRows.map fun r => r.participantId).dedup).filterMap fun p =>
    ((raceRows.filter fun r => r.participantId = p).map fun r => r.id).max?

/-- `TrackingRepository.findLatestByRace`: collect the per-participant
`MAX(id)` values, then select the rows whose `id` is in that list,
ordered by participant id. -/
def findLatestByRace (table : List TrackingRow) (raceId : String) :
    List TrackingRow :=
  let ids := latestIdsByParticipant table raceId
  sortByParticipant (table.filter fun r => ids.contains r.id)

/-- Modelled from the spec: the row the Read-Side Repository contract
selects for a participant — "latest position per participant for a race
(one row per participant, selected by maximum insert ordering within the
race)".  With the table in insert order this is the last matching row. -/
def latestByInsertOrder (table : List TrackingRow) (raceId participantId : String) :
    Option TrackingRow :=
  (table.filter fun r => r.raceId = raceId ∧ r.participantId = participantId).getLast?

/-! ### Transport client (`src/mqtt/mqtt.client.ts`) -/

/-- Connection state of `MqttClient` relevant to `unsubscribe`: whether
`this.client` is non-null and whether `this.isConnected` is set. -/
structure MqttClientState where
  hasClient : Bool
  isConnected : Bool
deriving DecidableEq, Repr

/-- Outcome of `MqttClient.unsubscribe` (`mqtt.client.ts` lines
214-231). -/
inductive UnsubscribeOutcome where
  | skippedNotConnected
  | ackSuccess
  | ackFailure (message : String)
deriving DecidableEq, Repr

/-- `MqttClient.unsubscribe`: when the client is absent or not connected
it logs a warning and returns (resolves) immediately without contacting
the broker; otherwise it issues the broker unsubscribe and settles with
the broker callback (`brokerError` is the callbacks error argument). -/
def unsubscribeClient (st : MqttClientState) (brokerError : Option String) :
    UnsubscribeOutcome :=
  if st.hasClient ∧ st.isConnected then
    match brokerError with
    | some e => UnsubscribeOutcome.ackFailure e
    | none => UnsubscribeOutcome.ackSuccess
  else UnsubscribeOutcome.skippedNotConnected

/-- Whether the outcome is a resolved (successful) promise. -/
def UnsubscribeOutcome.isSuccess : UnsubscribeOutcome → Bool
  | UnsubscribeOutcome.skippedNotConnected => true
  | UnsubscribeOutcome.ackSuccess => true
  | UnsubscribeOutcome.ackFailure _ => false

/-- Whether `unsubscribe` contacts the broker at all in the given
state (the guard on `mqtt.client.ts` line 215). -/
def brokerUnsubscribeIssued (st : MqttClientState) : Bool :=
  st.hasClient && st.isConnected

/-! ### Concrete fixtures, used to evaluate the model on sample inputs
(the sample payload of spec section 8 with simple coordinates) -/

/-- Environment in which the sample timestamp parses to the current
instant (fresh data). -/
def demoEnvFresh : JsEnv :=
  { isDatetime := fun _ => true
    parseDate := fun _ => some 100000
    now := 100000
    serverNow := 100000 }

/-- Environment in which the sample timestamp parses 100000 ms before
`Date.now()` (stale data under a 30000 ms threshold). -/
def demoEnvStale : JsEnv :=
  { isDatetime := fun _ => true
    parseDate := fun _ => some 0
    now := 100000
    serverNow := 100000 }

/-- Environment in which the sample timestamp parses 100000 ms after
`Date.now()` (a future-dated report). -/
def demoEnvFuture : JsEnv :=
  { isDatetime := fun _ => true
    parseDate := fun _ => some 200000
    now := 100000
    serverNow := 100000 }

/-- Configuration with the default 30000 ms staleness threshold. -/
def demoConfig : TrackingEffectsConfig := { staleDataThresholdMs := 30000 }

/-- Dependencies whose two storage writes both succeed. -/
def demoDeps : TrackingEffectsDeps :=
  { saveToRedis := fun _ => Except.ok ()
    saveToPostgres := fun _ => Except.ok () }

/-- The sample raw payload. -/
def demoRaw : RawPayload :=
  { participant_id := "P001"
    race_id := "R1"
    latitude := 0
    longitude := 0
    timestamp := "2025-07-01T08:15:30Z"
    status := "moving" }

/-- The sample payload with an empty participant id (fails structural
validation). -/
def demoRawBad : RawPayload := { demoRaw with participant_id := "" }

/-- The sample payload with latitude 200 (out of range). -/
def demoRawHighLat : RawPayload := { demoRaw with latitude := 200 }

/-- The validated form of `demoRaw`. -/
def demoPayload : TrackingPayload :=
  { participant_id := "P001"
    race_id := "R1"
    latitude := 0
    longitude := 0
    timestamp := "2025-07-01T08:15:30Z"
    status := ParticipantStatus.moving }

/-- The processed position obtained from `demoRaw` under
`demoEnvFresh`. -/
def demoPosition : ProcessedPosition :=
  transformToProcessedPosition demoEnvFresh demoPayload 100000

/-- Gateway state with one connected client `c1` subscribed to race
`R9`. -/
def demoGatewayState : GatewayState :=
  { subscribedClients := fun k =>
      if k = "c1" then some { socketId := "c1", raceIds := {"R9"} } else none
    rooms := fun r => if r = "race:R9" then {"c1"} else ∅ }

/-- Two rows for the same participant and race: the row inserted first
happens to draw the larger random uuid (900), the row inserted second
(and with the later client timestamp) draws the smaller one (100). -/
def demoRowOld : TrackingRow :=
  { id := 900, participantId := "P1", raceId := "R1", clientTimestamp := 100 }

/-- The later-inserted row; see `demoRowOld`. -/
def demoRowNew : TrackingRow :=
  { id := 100, participantId := "P1", raceId := "R1", clientTimestamp := 200 }

/-- Table holding `demoRowOld` then `demoRowNew`, in insert order. -/
def demoTable : List TrackingRow := [demoRowOld, demoRowNew]

/-! ### Helper lemmas -/

/-- A conditional singleton list is empty exactly when its condition fails. -/
lemma ite_cons_nil_eq_nil {c : Prop} [Decidable c] {m : String} :
    ((if c then [m] else []) = [] ) ↔ ¬ c := by
  split <;> simp_all

/-- A conditional empty list is empty exactly when its condition holds. -/
lemma ite_nil_cons_eq_nil {c : Prop} [Decidable c] {m : String} :
    ((if c then [] else [m]) = [] ) ↔ c := by
  split <;> simp_all

/-- Characterisation of a clean `TrackingPayloadSchema` run: no issue is
collected exactly when every field constraint holds. -/
lemma schemaIssues_eq_nil_iff (env : JsEnv) (raw : RawPayload) :
    schemaIssues env raw = [] ↔
      (1 ≤ raw.participant_id.length ∧ 1 ≤ raw.race_id.length ∧
        -90 ≤ raw.latitude ∧ raw.latitude ≤ 90 ∧
        -180 ≤ raw.longitude ∧ raw.longitude ≤ 180 ∧
        env.isDatetime raw.timestamp = true ∧
        (parseStatus raw.status).isSome = true) := by
  simp only [schemaIssues, List.append_eq_nil, ite_cons_nil_eq_nil,
    ite_nil_cons_eq_nil, not_lt, gt_iff_lt, and_assoc]

/-- Inversion of a successful `validatePayload`: the schema collected no
issue and the validated payload copies the raw fields. -/
lemma validatePayload_ok_elim {env : JsEnv} {raw : RawPayload}
    {payload : TrackingPayload}
    (h : validatePayload env raw = Except.ok payload) :
    schemaIssues env raw = [] ∧ parseStatus raw.status = some payload.status ∧
    payload.participant_id = raw.participant_id ∧
    payload.race_id = raw.race_id ∧
    payload.latitude = raw.latitude ∧ payload.longitude = raw.longitude ∧
    payload.timestamp = raw.timestamp := by
  unfold validatePayload at h
  split at h
  · exact absurd h (by simp)
  · rename_i st hps
    by_cases hi : schemaIssues env raw = []
    · rw [if_pos hi] at h
      injection h with h
      subst h
      exact ⟨hi, hps, rfl, rfl, rfl, rfl, rfl⟩
    · rw [if_neg hi] at h
      exact absurd h (by simp)

/-- A payload that survives structural validation has in-range
coordinates (the zod schema already constrains them). -/
lemma validatePayload_ok_coords {env : JsEnv} {raw : RawPayload}
    {payload : TrackingPayload}
    (h : validatePayload env raw = Except.ok payload) :
    -90 ≤ payload.latitude ∧ payload.latitude ≤ 90 ∧
    -180 ≤ payload.longitude ∧ payload.longitude ≤ 180 := by
  obtain ⟨hi, -, -, -, hla, hlo, -⟩ := validatePayload_ok_elim h
  rw [schemaIssues_eq_nil_iff] at hi
  rw [hla, hlo]
  exact ⟨hi.2.2.1, hi.2.2.2.1, hi.2.2.2.2.1, hi.2.2.2.2.2.1⟩

/-- `validateCoordinates` accepts in-range coordinates. -/
lemma validateCoordinates_ok {la lo : ℚ} (h1 : -90 ≤ la) (h2 : la ≤ 90)
    (h3 : -180 ≤ lo) (h4 : lo ≤ 180) :
    validateCoordinates la lo = Except.ok (la, lo) := by
  unfold validateCoordinates
  rw [if_neg (by rw [not_or]; exact ⟨not_lt.mpr h1, not_lt.mpr h2⟩),
    if_neg (by rw [not_or]; exact ⟨not_lt.mpr h3, not_lt.mpr h4⟩)]

/-- When the schema collects at least one issue, the whole stage
sequence short-circuits at stage 1 with `PayloadValidationError`. -/
lemma validateStages_validation_err {env : JsEnv}
    {config : TrackingEffectsConfig} {raw : RawPayload}
    (h : schemaIssues env raw ≠ []) :
    validateStages env config raw =
      Except.error (TrackingErr.payloadValidation (schemaIssues env raw)) := by
  unfold validateStages validatePayload
  cases hps : parseStatus raw.status with
  | none => simp [Except.bind]
  | some st => simp [if_neg h, Except.bind]

/-- Stage decomposition of a fully successful run: validation passed,
the timestamp parsed, and the staleness bound held. -/
lemma validateStages_ok_of {env : JsEnv} {config : TrackingEffectsConfig}
    {raw : RawPayload} {payload : TrackingPayload} {t : Int}
    (hv : validatePayload env raw = Except.ok payload)
    (hp : env.parseDate payload.timestamp = some t)
    (hs : ¬ env.now - t > config.staleDataThresholdMs) :
    validateStages env config raw =
      Except.ok (transformToProcessedPosition env payload t) := by
  obtain ⟨h1, h2, h3, h4⟩ := validatePayload_ok_coords hv
  unfold validateStages
  rw [hv]
  simp only [Except.bind]
  unfold parseTimestamp
  rw [hp]
  simp only []
  rw [validateCoordinates_ok h1 h2 h3 h4]
  unfold checkStaleData
  rw [if_neg hs]

/-- Stage decomposition of a staleness rejection: validation passed, the
timestamp parsed, and the age exceeded the threshold. -/
lemma validateStages_stale_of {env : JsEnv} {config : TrackingEffectsConfig}
    {raw : RawPayload} {payload : TrackingPayload} {t : Int}
    (hv : validatePayload env raw = Except.ok payload)
    (hp : env.parseDate payload.timestamp = some t)
    (hs : env.now - t > config.staleDataThresholdMs) :
    validateStages env config raw =
      Except.error (TrackingErr.staleData payload.participant_id
        payload.race_id t config.staleDataThresholdMs) := by
  obtain ⟨h1, h2, h3, h4⟩ := validatePayload_ok_coords hv
  unfold validateStages
  rw [hv]
  simp only [Except.bind]
  unfold parseTimestamp
  rw [hp]
  simp only []
  rw [validateCoordinates_ok h1 h2 h3 h4]
  unfold checkStaleData
  rw [if_pos hs]

/-- Length of a `filterMap` in terms of the inputs on which the function
returns `none`. -/
lemma length_filterMap_eq_sub {α β : Type} (f : α → Option β) (l : List α) :
    (l.filterMap f).length = l.length - l.countP (fun a => (f a).isNone) := by
  induction l with
  | nil => rfl
  | cons a l ih =>
    have hc : l.countP (fun a => (f a).isNone) ≤ l.length := List.countP_le_length _
    cases hfa : f a with
    | none =>
      simp [List.filterMap_cons, hfa, List.countP_cons, ih]
      try omega
    | some b =>
      simp [List.filterMap_cons, hfa, List.countP_cons, ih]
      try omega

/-- The dual-write step always issues both storage writes. -/
lemma dualWriteStep_writes (deps : TrackingEffectsDeps)
    (position : ProcessedPosition) :
    EffectOp.redisWrite position ∈ (dualWriteStep deps position).2 ∧
    EffectOp.postgresWrite position ∈ (dualWriteStep deps position).2 := by
  cases hr : deps.saveToRedis position <;>
    cases hp : deps.saveToPostgres position <;>
      simp [dualWriteStep, hr, hp]

/-- Dual-write step when both writes succeed. -/
lemma dualWriteStep_ok_ok {deps : TrackingEffectsDeps}
    {position : ProcessedPosition}
    (h1 : deps.saveToRedis position = Except.ok ())
    (h2 : deps.saveToPostgres position = Except.ok ()) :
    dualWriteStep deps position =
      (Except.ok (transformToPositionUpdate position),
       [EffectOp.redisWrite position, EffectOp.postgresWrite position,
        EffectOp.broadcast (transformToPositionUpdate position)]) := by
  simp [dualWriteStep, h1, h2]

/-- Dual-write step when the cache write fails. -/
lemma dualWriteStep_redis_err {deps : TrackingEffectsDeps}
    {position : ProcessedPosition} {e : StorageError}
    (h1 : deps.saveToRedis position = Except.error e) :
    dualWriteStep deps position =
      (Except.error (TrackingErr.storage e),
       [EffectOp.redisWrite position, EffectOp.postgresWrite position]) := by
  cases hp : deps.saveToPostgres position <;> simp [dualWriteStep, h1, hp]

/-- Dual-write step when the durable write fails. -/
lemma dualWriteStep_postgres_err {deps : TrackingEffectsDeps}
    {position : ProcessedPosition} {e : StorageError}
    (h1 : deps.saveToRedis position = Except.ok ())
    (h2 : deps.saveToPostgres position = Except.error e) :
    dualWriteStep deps position =
      (Except.error (TrackingErr.storage e),
       [EffectOp.redisWrite position, EffectOp.postgresWrite position]) := by
  simp [dualWriteStep, h1, h2]

/-! ### Claim theorems -/

/-- C1: for every payload that passes all five pipeline stages,
`processTrackingData` issues both the cache write (`saveToRedis`) and the
durable write (`saveToPostgres`) with concurrency bound 2 and waits for
both; it yields a `PositionUpdateDto` and invokes the broadcast callback
only if both writes succeeded, and if either write fails the whole
operation fails with the failing write's `StorageError` (which names the
failed operation) and the broadcast callback is never invoked. -/
theorem c1_dual_write (env : JsEnv) (config : TrackingEffectsConfig)
    (deps : TrackingEffectsDeps) (raw : RawPayload)
    (position : ProcessedPosition)
    (h : validateStages env config raw = Except.ok position) :
    dualWriteConcurrency = 2 ∧
    EffectOp.redisWrite position ∈ (processTrackingData env config deps raw).2 ∧
    EffectOp.postgresWrite position ∈ (processTrackingData env config deps raw).2 ∧
    (deps.saveToRedis position = Except.ok () →
      deps.saveToPostgres position = Except.ok () →
      processTrackingData env config deps raw =
        (Except.ok (transformToPositionUpdate position),
         [EffectOp.redisWrite position, EffectOp.postgresWrite position,
          EffectOp.broadcast (transformToPositionUpdate position)])) ∧
    (∀ e, deps.saveToRedis position = Except.error e →
      (processTrackingData env config deps raw).1 =
        Except.error (TrackingErr.storage e) ∧
      ∀ u, EffectOp.broadcast u ∉ (processTrackingData env config deps raw).2) ∧
    (∀ e, deps.saveToRedis position = Except.ok () →
      deps.saveToPostgres position = Except.error e →
      (processTrackingData env config deps raw).1 =
        Except.error (TrackingErr.storage e) ∧
      ∀ u, EffectOp.broadcast u ∉ (processTrackingData env config deps raw).2) := by
  have hq : processTrackingData env config deps raw = dualWriteStep deps position := by
    unfold processTrackingData
    rw [h]
  obtain ⟨hm1, hm2⟩ := dualWriteStep_writes deps position
  refine ⟨rfl, by rw [hq]; exact hm1, by rw [hq]; exact hm2, ?_, ?_, ?_⟩
  · intro h1 h2
    rw [hq, dualWriteStep_ok_ok h1 h2]
  · intro e he
    rw [hq, dualWriteStep_redis_err he]
    exact ⟨rfl, by simp⟩
  · intro e h1 h2
    rw [hq, dualWriteStep_postgres_err h1 h2]
    exact ⟨rfl, by simp⟩

/-- C2: for every raw input the pipeline runs the five stages in the
order structural validation, timestamp parsing, coordinate
re-validation, staleness check, enrichment; each stage either produces
the input of the next or short-circuits with its own distinct tagged
rejection (`PayloadValidationError`, `TimestampParseError`,
`InvalidCoordinatesError`, `StaleDataError`), and enrichment (stamping
`server_received_at`) is total. -/
theorem c2_stage_order (env : JsEnv) (config : TrackingEffectsConfig)
    (raw : RawPayload) :
    (schemaIssues env raw ≠ [] →
      validateStages env config raw =
        Except.error (TrackingErr.payloadValidation (schemaIssues env raw))) ∧
    (∀ payload, validatePayload env raw = Except.ok payload →
      (env.parseDate payload.timestamp = none →
        validateStages env config raw =
          Except.error (TrackingErr.timestampParse payload.timestamp)) ∧
      (∀ t, env.parseDate payload.timestamp = some t →
        ((payload.latitude < -90 ∨ payload.latitude > 90 ∨
            payload.longitude < -180 ∨ payload.longitude > 180) →
          validateStages env config raw =
            Except.error (TrackingErr.invalidCoordinates payload.latitude
              payload.longitude)) ∧
        (env.now - t > config.staleDataThresholdMs →
          validateStages env config raw =
            Except.error (TrackingErr.staleData payload.participant_id
              payload.race_id t config.staleDataThresholdMs)) ∧
        (¬ env.now - t > config.staleDataThresholdMs →
          validateStages env config raw =
            Except.ok (transformToProcessedPosition env payload t)))) ∧
    (∀ payload t, (transformToProcessedPosition env payload t).serverReceivedAt =
      env.serverNow) := by
  refine ⟨validateStages_validation_err, ?_, fun _ _ => rfl⟩
  intro payload hv
  constructor
  · intro hp
    unfold validateStages
    rw [hv]
    simp only [Except.bind]
    unfold parseTimestamp
    rw [hp]
  · intro t hp
    obtain ⟨h1, h2, h3, h4⟩ := validatePayload_ok_coords hv
    refine ⟨?_, fun hs => validateStages_stale_of hv hp hs,
      fun hs => validateStages_ok_of hv hp hs⟩
    intro hbad
    exfalso
    rcases hbad with hb | hb | hb | hb
    · exact absurd hb (not_lt.mpr h1)
    · exact absurd hb (not_lt.mpr h2)
    · exact absurd hb (not_lt.mpr h3)
    · exact absurd hb (not_lt.mpr h4)

/-- C3: a payload whose parsed client timestamp is strictly older than
the staleness threshold is rejected with `StaleDataError` and neither
storage write is invoked; an age exactly equal to the threshold is not
rejected by this stage; the configured default threshold is 30000 ms. -/
theorem c3_staleness :
    (∀ (env : JsEnv) (config : TrackingEffectsConfig)
        (deps : TrackingEffectsDeps) (raw : RawPayload)
        (payload : TrackingPayload) (t : Int),
      validatePayload env raw = Except.ok payload →
      env.parseDate payload.timestamp = some t →
      env.now - t > config.staleDataThresholdMs →
      processTrackingData env config deps raw =
        (Except.error (TrackingErr.staleData payload.participant_id
          payload.race_id t config.staleDataThresholdMs), [])) ∧
    (∀ (participantId raceId : String) (t thresholdMs now : Int),
      now - t = thresholdMs →
      checkStaleData participantId raceId t thresholdMs now = Except.ok t) ∧
    defaultStaleDataThresholdMs = 30000 := by
  refine ⟨?_, ?_, rfl⟩
  · intro env config deps raw payload t hv hp hs
    unfold processTrackingData
    rw [validateStages_stale_of hv hp hs]
  · intro participantId raceId t thresholdMs now h
    unfold checkStaleData
    rw [if_neg (by rw [h]; exact lt_irrefl thresholdMs)]

/-- C4: a payload with latitude outside [-90, 90] or longitude outside
[-180, 180] fails with `InvalidCoordinatesError` or is caught earlier by
structural validation (`PayloadValidationError`), and neither storage
write is invoked. -/
theorem c4_coordinates (env : JsEnv) (config : TrackingEffectsConfig)
    (deps : TrackingEffectsDeps) (raw : RawPayload)
    (h : raw.latitude < -90 ∨ raw.latitude > 90 ∨
      raw.longitude < -180 ∨ raw.longitude > 180) :
    ((∃ errs, (processTrackingData env config deps raw).1 =
        Except.error (TrackingErr.payloadValidation errs)) ∨
      (processTrackingData env config deps raw).1 =
        Except.error (TrackingErr.invalidCoordinates raw.latitude raw.longitude)) ∧
    (processTrackingData env config deps raw).2 = [] := by
  have hne : schemaIssues env raw ≠ [] := by
    rw [Ne, schemaIssues_eq_nil_iff]
    intro hk
    rcases h with hb | hb | hb | hb
    · exact absurd hb (not_lt.mpr hk.2.2.1)
    · exact absurd hb (not_lt.mpr hk.2.2.2.1)
    · exact absurd hb (not_lt.mpr hk.2.2.2.2.1)
    · exact absurd hb (not_lt.mpr hk.2.2.2.2.2.1)
  have hv := @validateStages_validation_err env config raw hne
  unfold processTrackingData
  rw [hv]
  exact ⟨Or.inl ⟨schemaIssues env raw, rfl⟩, rfl⟩

/-- C5: the batch variant maps every payload independently through the
logging pipeline with concurrency bound 10, cannot fail (it is a total
function into the list of successes), and returns exactly the successes:
its length is N minus the number of rejected payloads, and rejected
payloads contribute nothing. -/
theorem c5_batch (env : JsEnv) (config : TrackingEffectsConfig)
    (deps : TrackingEffectsDeps) (payloads : List RawPayload) :
    batchProcessTrackingData env config deps payloads =
      payloads.filterMap
        (fun p => (processTrackingDataWithLogging env config deps p).1) ∧
    (batchProcessTrackingData env config deps payloads).length =
      payloads.length - payloads.countP
        (fun p => ((processTrackingDataWithLogging env config deps p).1).isNone) ∧
    batchConcurrency = 10 := by
  have hmap : batchProcessTrackingData env config deps payloads =
      payloads.filterMap
        (fun p => (processTrackingDataWithLogging env config deps p).1) := by
    unfold batchProcessTrackingData
    rw [List.filterMap_map]
    rfl
  refine ⟨hmap, ?_, rfl⟩
  rw [hmap, length_filterMap_eq_sub]

/-- C6 counterexample: a connected viewer's `unsubscribe_race` request
whose body does not decode to a non-empty raceId (empty string or
missing field) is acknowledged with success = false, so the gateway does
not unconditionally acknowledge success. -/
theorem c6_unsubscribe_counterexample :
    (demoGatewayState.subscribedClients "c1").isSome = true ∧
    (handleUnsubscribeRace demoGatewayState "c1" (some "")).2.success = false ∧
    (handleUnsubscribeRace demoGatewayState "c1" (none : Option String)).2.success =
      false := by
  exact ⟨rfl, rfl, rfl⟩

/-- C6 (amended): for every `unsubscribe_race` request whose body
decodes to a non-empty raceId, the gateway removes the connection from
the race's room and from its own membership set and acknowledges success
naming the race; unsubscribing a race the connection never subscribed to
returns success and leaves its membership set unchanged.  A request whose
body fails to decode is acknowledged with failure instead. -/
theorem c6_unsubscribe_amended (st : GatewayState) (clientId raceId : String)
    (sc : SubscribedClient) (hlen : 1 ≤ raceId.length)
    (hc : st.subscribedClients clientId = some sc) :
    (handleUnsubscribeRace st clientId (some raceId)).2.success = true ∧
    (handleUnsubscribeRace st clientId (some raceId)).2.raceId = some raceId ∧
    clientId ∉ (handleUnsubscribeRace st clientId (some raceId)).1.rooms
      ("race:" ++ raceId) ∧
    (handleUnsubscribeRace st clientId (some raceId)).1.subscribedClients clientId =
      some { sc with raceIds := sc.raceIds.erase raceId } ∧
    (raceId ∉ sc.raceIds →
      (handleUnsubscribeRace st clientId (some raceId)).1.subscribedClients clientId =
        some sc) := by
  have hd : decodeSubscribeRace (some raceId) = some raceId := by
    simp [decodeSubscribeRace, hlen]
  unfold handleUnsubscribeRace
  rw [hd]
  refine ⟨rfl, rfl, ?_, ?_, ?_⟩
  · simp [Finset.not_mem_erase]
  · simp [hc]
  · intro hmem
    simp [hc, Finset.erase_eq_of_not_mem hmem]

/-- C6 witness: unsubscribing race `R2`, to which connected client `c1`
never subscribed, succeeds and leaves the membership set unchanged. -/
theorem c6_unsubscribe_amended_witness :
    (handleUnsubscribeRace demoGatewayState "c1" (some "R2")).2.success = true ∧
    (handleUnsubscribeRace demoGatewayState "c1" (some "R2")).1.subscribedClients
      "c1" = some { socketId := "c1", raceIds := {"R9"} } := by
  have h := c6_unsubscribe_amended demoGatewayState "c1" "R2"
    { socketId := "c1", raceIds := {"R9"} } (by decide) rfl
  exact ⟨h.1, h.2.2.2.2 (by decide)⟩

/-- C7 (code bug): `findLatestByRace` selects per participant the row
with the maximal random uuid, not the row with maximal insert ordering.
On a table whose first-inserted row drew the larger uuid, the query
returns that first-inserted row, while the row of maximum insert
ordering within the race is the second one. -/
theorem c7_find_latest_bug :
    findLatestByRace demoTable "R1" = [demoRowOld] ∧
    latestByInsertOrder demoTable "R1" "P1" = some demoRowNew ∧
    demoRowOld ≠ demoRowNew := by
  exact ⟨by decide, by decide, by decide⟩

/-- C8 counterexample: `unsubscribe` on a client whose connection is
absent resolves successfully (after only a warning log) without any
broker interaction, instead of failing with a transport error. -/
theorem c8_unsubscribe_counterexample :
    unsubscribeClient { hasClient := true, isConnected := false } none =
      UnsubscribeOutcome.skippedNotConnected ∧
    (unsubscribeClient { hasClient := true, isConnected := false } none).isSuccess =
      true ∧
    brokerUnsubscribeIssued { hasClient := true, isConnected := false } = false := by
  exact ⟨rfl, rfl, rfl⟩

/-- C8 (amended): when the underlying connection is absent or not
established, `unsubscribe` logs a warning and resolves successfully
without contacting the broker (no transport error, no broker
acknowledgment); when connected, it suspends until the broker callback
and fails exactly when the broker reports an error. -/
theorem c8_unsubscribe_amended (st : MqttClientState) (brokerError : Option String) :
    (¬ (st.hasClient = true ∧ st.isConnected = true) →
      unsubscribeClient st brokerError = UnsubscribeOutcome.skippedNotConnected ∧
      (unsubscribeClient st brokerError).isSuccess = true ∧
      brokerUnsubscribeIssued st = false) ∧
    (st.hasClient = true → st.isConnected = true →
      (brokerError = none →
        unsubscribeClient st brokerError = UnsubscribeOutcome.ackSuccess) ∧
      (∀ e, brokerError = some e →
        unsubscribeClient st brokerError = UnsubscribeOutcome.ackFailure e)) := by
  constructor
  · intro h
    have he : unsubscribeClient st brokerError =
        UnsubscribeOutcome.skippedNotConnected := by
      unfold unsubscribeClient
      rw [if_neg h]
    refine ⟨he, by rw [he]; rfl, ?_⟩
    unfold brokerUnsubscribeIssued
    rcases Bool.eq_false_or_eq_true st.hasClient with h1 | h1
    · rcases Bool.eq_false_or_eq_true st.isConnected with h2 | h2
      · exact absurd ⟨h1, h2⟩ h
      · rw [h1, h2]; rfl
    · rw [h1]; rfl
  · intro h1 h2
    have hcond : st.hasClient = true ∧ st.isConnected = true := ⟨h1, h2⟩
    constructor
    · intro hb
      unfold unsubscribeClient
      rw [if_pos hcond, hb]
    · intro e hb
      unfold unsubscribeClient
      rw [if_pos hcond, hb]

/-- C8 witness: a fully disconnected client resolves `unsubscribe`
successfully without a broker call, and a connected client propagates a
broker error. -/
theorem c8_unsubscribe_amended_witness :
    (unsubscribeClient { hasClient := false, isConnected := false } none =
        UnsubscribeOutcome.skippedNotConnected ∧
      (unsubscribeClient { hasClient := false, isConnected := false } none).isSuccess =
        true ∧
      brokerUnsubscribeIssued { hasClient := false, isConnected := false } = false) ∧
    unsubscribeClient { hasClient := true, isConnected := true } (some "timeout") =
      UnsubscribeOutcome.ackFailure "timeout" := by
  exact ⟨(c8_unsubscribe_amended { hasClient := false, isConnected := false } none).1
      (by decide),
    ((c8_unsubscribe_amended { hasClient := true, isConnected := true }
      (some "timeout")).2 rfl rfl).2 "timeout" rfl⟩

/-- C9 counterexample: the ingestion boundary logs a staleness rejection
with `logger.warn`, the same severity it uses for validation rejections,
not a strictly lower one. -/
theorem c9_severity_counterexample :
    (processTrackingDataWithLogging demoEnvStale demoConfig demoDeps demoRaw).2.2 =
      [(LogLevel.warn, "Dropped stale data")] ∧
    (processTrackingDataWithLogging demoEnvFresh demoConfig demoDeps demoRawBad).2.2 =
      [(LogLevel.warn, "Payload validation failed")] ∧
    ¬ LogLevel.warn.severity < LogLevel.warn.severity := by
  exact ⟨by decide, by decide, by decide⟩

/-- C9 (amended): the ingestion boundary logs staleness rejections at
warning severity — the same severity used for validation and coordinate
rejections — and converts all of them to a null (no result) outcome. -/
theorem c9_severity_amended (env : JsEnv) (config : TrackingEffectsConfig)
    (deps : TrackingEffectsDeps) (raw : RawPayload) :
    (∀ pid rid t th,
      (processTrackingData env config deps raw).1 =
        Except.error (TrackingErr.staleData pid rid t th) →
      processTrackingDataWithLogging env config deps raw =
        (none, (processTrackingData env config deps raw).2,
         [(LogLevel.warn, "Dropped stale data")])) ∧
    (∀ errs,
      (processTrackingData env config deps raw).1 =
        Except.error (TrackingErr.payloadValidation errs) →
      processTrackingDataWithLogging env config deps raw =
        (none, (processTrackingData env config deps raw).2,
         [(LogLevel.warn, "Payload validation failed")])) ∧
    (∀ la lo,
      (processTrackingData env config deps raw).1 =
        Except.error (TrackingErr.invalidCoordinates la lo) →
      processTrackingDataWithLogging env config deps raw =
        (none, (processTrackingData env config deps raw).2,
         [(LogLevel.warn, "Invalid coordinates received")])) := by
  refine ⟨?_, ?_, ?_⟩
  · intro pid rid t th h1
    rcases hpd : processTrackingData env config deps raw with ⟨res, ops⟩
    rw [hpd] at h1
    have h2 : res = Except.error (TrackingErr.staleData pid rid t th) := h1
    subst h2
    unfold processTrackingDataWithLogging
    rw [hpd]
  · intro errs h1
    rcases hpd : processTrackingData env config deps raw with ⟨res, ops⟩
    rw [hpd] at h1
    have h2 : res = Except.error (TrackingErr.payloadValidation errs) := h1
    subst h2
    unfold processTrackingDataWithLogging
    rw [hpd]
  · intro la lo h1
    rcases hpd : processTrackingData env config deps raw with ⟨res, ops⟩
    rw [hpd] at h1
    have h2 : res = Except.error (TrackingErr.invalidCoordinates la lo) := h1
    subst h2
    unfold processTrackingDataWithLogging
    rw [hpd]

/-- C9 witness: the concrete stale run is logged at warning severity and
yields no result. -/
theorem c9_severity_amended_witness :
    processTrackingDataWithLogging demoEnvStale demoConfig demoDeps demoRaw =
      (none, [], [(LogLevel.warn, "Dropped stale data")]) := by
  have h := (c9_severity_amended demoEnvStale demoConfig demoDeps demoRaw).1
    "P001" "R1" 0 30000 (by decide)
  exact h.trans (by decide)

/-- C10: the staleness check is one-sided, so a structurally valid
payload whose parsed client timestamp is at or after `Date.now()` —
arbitrarily far in the future — passes the staleness stage, and when
both storage writes succeed the pipeline writes to both stores and
broadcasts the update. -/
theorem c10_future_timestamp (env : JsEnv) (config : TrackingEffectsConfig)
    (deps : TrackingEffectsDeps) (raw : RawPayload)
    (payload : TrackingPayload) (t : Int)
    (hv : validatePayload env raw = Except.ok payload)
    (hp : env.parseDate payload.timestamp = some t)
    (hf : env.now ≤ t)
    (hth : 0 ≤ config.staleDataThresholdMs)
    (hr : deps.saveToRedis (transformToProcessedPosition env payload t) =
      Except.ok ())
    (hg : deps.saveToPostgres (transformToProcessedPosition env payload t) =
      Except.ok ()) :
    checkStaleData payload.participant_id payload.race_id t
      config.staleDataThresholdMs env.now = Except.ok t ∧
    processTrackingData env config deps raw =
      (Except.ok (transformToPositionUpdate
        (transformToProcessedPosition env payload t)),
       [EffectOp.redisWrite (transformToProcessedPosition env payload t),
        EffectOp.postgresWrite (transformToProcessedPosition env payload t),
        EffectOp.broadcast (transformToPositionUpdate
          (transformToProcessedPosition env payload t))]) := by
  have hs : ¬ env.now - t > config.staleDataThresholdMs := by
    intro hgt
    omega
  constructor
  · unfold checkStaleData
    rw [if_neg hs]
  · have hq : processTrackingData env config deps raw =
        dualWriteStep deps (transformToProcessedPosition env payload t) := by
      unfold processTrackingData
      rw [validateStages_ok_of hv hp hs]
    rw [hq, dualWriteStep_ok_ok hr hg]

/-- C10 witness: the sample payload timestamped 100000 ms in the future
is accepted, written to both stores, and broadcast. -/
theorem c10_future_timestamp_witness :
    processTrackingData demoEnvFuture demoConfig demoDeps demoRaw =
      (Except.ok (transformToPositionUpdate
        (transformToProcessedPosition demoEnvFuture demoPayload 200000)),
       [EffectOp.redisWrite (transformToProcessedPosition demoEnvFuture demoPayload 200000),
        EffectOp.postgresWrite (transformToProcessedPosition demoEnvFuture demoPayload 200000),
        EffectOp.broadcast (transformToPositionUpdate
          (transformToProcessedPosition demoEnvFuture demoPayload 200000))]) :=
  (c10_future_timestamp demoEnvFuture demoConfig demoDeps demoRaw demoPayload
    200000 (by decide) rfl (by decide) (by decide) rfl rfl).2

/-- C1 witness: the sample fresh payload passes the stages, both writes
succeed, and the pipeline yields the update and broadcasts it. -/
theorem c1_dual_write_witness :
    processTrackingData demoEnvFresh demoConfig demoDeps demoRaw =
      (Except.ok (transformToPositionUpdate demoPosition),
       [EffectOp.redisWrite demoPosition, EffectOp.postgresWrite demoPosition,
        EffectOp.broadcast (transformToPositionUpdate demoPosition)]) :=
  (c1_dual_write demoEnvFresh demoConfig demoDeps demoRaw demoPosition
    (by decide)).2.2.2.1 rfl rfl

/-- C2 witness: the sample fresh payload takes the full success path of
the stage sequence. -/
theorem c2_stage_order_witness :
    validateStages demoEnvFresh demoConfig demoRaw =
      Except.ok (transformToProcessedPosition demoEnvFresh demoPayload 100000) :=
  ((((c2_stage_order demoEnvFresh demoConfig demoRaw).2.1 demoPayload
    (by decide)).2 100000 rfl).2.2) (by decide)

/-- C3 witness: the sample payload aged 100000 ms against a 30000 ms
threshold is rejected as stale with no writes issued. -/
theorem c3_staleness_witness :
    processTrackingData demoEnvStale demoConfig demoDeps demoRaw =
      (Except.error (TrackingErr.staleData "P001" "R1" 0 30000), []) :=
  c3_staleness.1 demoEnvStale demoConfig demoDeps demoRaw demoPayload 0
    (by decide) rfl (by decide)

/-- C4 witness: the sample payload with latitude 200 is rejected before
any store write. -/
theorem c4_coordinates_witness :
    ((∃ errs, (processTrackingData demoEnvFresh demoConfig demoDeps demoRawHighLat).1 =
        Except.error (TrackingErr.payloadValidation errs)) ∨
      (processTrackingData demoEnvFresh demoConfig demoDeps demoRawHighLat).1 =
        Except.error (TrackingErr.invalidCoordinates 200 0)) ∧
    (processTrackingData demoEnvFresh demoConfig demoDeps demoRawHighLat).2 = [] :=
  c4_coordinates demoEnvFresh demoConfig demoDeps demoRawHighLat
    (Or.inr (Or.inl (by decide)))

end Tracking
